import Mathlib

/-
  Verification development for the fossdriver repository.

  Shallow embedding of fossdriver/server.py and fossdriver/tasks.py.
  The HTTP transport, the markup extractor (fossdriver/parser.py) and the
  remote Fossology server are modelled as oracles: functions from request
  parameters to the already-parsed results that the source would obtain
  from them.  The control flow of every embedded function is translated
  line by line from the Python source.
-/

namespace Fossdriver

/-! Python substring containment: the expression needle in haystack. -/

def listHasInfix (needle : List Char) : List Char → Bool
  | [] => needle.isEmpty
  | c :: rest => needle.isPrefixOf (c :: rest) || listHasInfix needle rest

def strIn (needle haystack : String) : Bool :=
  listHasInfix needle.data haystack.data

/-! Constants from fossdriver/server.py lines 18-20. -/

def NOT_LOGGED_IN_RESPONSE : String := "session timed out"

def USER_PASSWORD_NOT_FOUND : String := "The combination of user name and password was not found"

def MAX_LOGIN_ATTEMPTS : Nat := 5

/-!
  Session layer: FossServer._checkLoggedIn and FossServer._retryRequest
  (server.py lines 44-76).

  A requests.Response object is modelled by its ok flag and its text body.
  Each invocation of the wrapped request function fn is modelled by an
  oracle outs : Nat -> Outcome giving the outcome of the k-th invocation
  made by this call: a connection-level error, some other exception, or a
  response object.
-/

structure Resp where
  ok : Bool
  text : Option String
deriving Repr, DecidableEq

/-- FossServer._checkLoggedIn (server.py line 46): returns true when the
user is logged in, i.e. the negation of: response.ok and response.text is
not None and NOT_LOGGED_IN_RESPONSE occurs in response.text. -/
def checkLoggedIn (r : Resp) : Bool :=
  !(r.ok && (match r.text with
             | none => false
             | some t => strIn NOT_LOGGED_IN_RESPONSE t))

inductive Outcome
  | connError
  | otherError
  | resp (r : Resp)
deriving Repr, DecidableEq

inductive ExcKind
  | connErr
  | otherErr
deriving Repr, DecidableEq

/-- Behavior of one invocation of self.Login() as observed by the retry
loop that triggered it: Login either returns normally or raises an
exception that the catch-all handler of the loop swallows.  In either
case it may have changed self.loginAttempts (its nested requests go
through _retryRequest recursively, which resets the counter on any
logged-in response and increments it on any session-expired response),
so the resulting counter value is part of the behavior. -/
inductive LoginBehavior
  | ret (newLA : Nat)
  | raises (e : ExcKind) (newLA : Nat)
deriving Repr, DecidableEq

/-- State of one _retryRequest invocation: the local variable
connectionRetries, the instance field self.loginAttempts, plus
instrumentation counting the fn invocations (network requests), the
time.sleep(1) pauses and the self.Login() invocations performed, and the
local variable exc holding the last caught exception. -/
structure RRState where
  connectionRetries : Nat
  loginAttempts : Nat
  requests : Nat
  sleeps : Nat
  logins : Nat
  exc : Option ExcKind
deriving Repr, DecidableEq

inductive RRResult
  | success (r : Resp)
  | maxLoginExceeded
  | reraise (e : Option ExcKind)
  | outOfFuel
deriving Repr, DecidableEq

inductive StepOut
  | done (res : RRResult) (st : RRState)
  | again (st : RRState)
deriving Repr, DecidableEq

/-- One iteration of the while loop of FossServer._retryRequest
(server.py lines 53-76), including the loop-exit code after it: if the
guard connectionRetries < 5 and loginAttempts <= MAX_LOGIN_ATTEMPTS
holds, run the body once; otherwise raise FossServerException when
loginAttempts >= MAX_LOGIN_ATTEMPTS and re-raise the stored exception
otherwise. -/
def retryStep (outs : Nat → Outcome) (login : Nat → Nat → LoginBehavior)
    (st : RRState) : StepOut :=
  if st.connectionRetries < 5 ∧ st.loginAttempts ≤ MAX_LOGIN_ATTEMPTS then
    match outs st.requests with
    | .connError =>
        .again { st with requests := st.requests + 1, sleeps := st.sleeps + 1,
                         exc := some .connErr }
    | .otherError =>
        .again { st with requests := st.requests + 1, sleeps := st.sleeps + 1,
                         exc := some .otherErr }
    | .resp r =>
        if checkLoggedIn r then
          .done (.success r) { st with requests := st.requests + 1, loginAttempts := 0 }
        else
          let st1 : RRState :=
            { st with requests := st.requests + 1,
                      loginAttempts := st.loginAttempts + 1,
                      logins := st.logins + 1 }
          match login st1.logins st1.loginAttempts with
          | .ret la2 => .again { st1 with loginAttempts := la2 }
          | .raises e la2 =>
              .again { st1 with loginAttempts := la2, exc := some e,
                                sleeps := st1.sleeps + 1 }
  else
    if st.loginAttempts ≥ MAX_LOGIN_ATTEMPTS then .done .maxLoginExceeded st
    else .done (.reraise st.exc) st

/-- The while loop of FossServer._retryRequest, fuel-bounded: one unit of
fuel per evaluation of the loop guard. -/
def retryLoop (outs : Nat → Outcome) (login : Nat → Nat → LoginBehavior) :
    Nat → RRState → RRResult × RRState
  | 0, st => (.outOfFuel, st)
  | fuel + 1, st =>
      match retryStep outs login st with
      | .done res st1 => (res, st1)
      | .again st1 => retryLoop outs login fuel st1

/-- Initial state of one _retryRequest invocation: the local variables
exc = None and connectionRetries = 0 are fresh, self.loginAttempts is
whatever the session holds at entry. -/
def initRRState (loginAttempts : Nat) : RRState :=
  { connectionRetries := 0, loginAttempts := loginAttempts,
    requests := 0, sleeps := 0, logins := 0, exc := none }

/-- FossServer._retryRequest (server.py lines 48-76), entered with the
session counter self.loginAttempts = la. -/
def retryRequest (outs : Nat → Outcome) (login : Nat → Nat → LoginBehavior)
    (fuel : Nat) (la : Nat) : RRResult × RRState :=
  retryLoop outs login fuel (initRRState la)

/-!
  Parsed records (fossdriver/parser.py lines 8-33) and the server oracle.

  The remote server together with the extractor is modelled by a record
  of functions from request parameters to parsed results.  The single-job
  status endpoint is time-varying: singleJob j t is the parsed result of
  the t-th status query for job id j issued by one polling loop, so that
  a job status may change between queries.
-/

structure ParsedUpload where
  name : String
  _id : Int
  topTreeItemId : Int
deriving Repr, DecidableEq

structure ParsedLicense where
  name : String
  _id : Int
deriving Repr, DecidableEq

structure ParsedJob where
  _id : Int
  status : String
  agent : String
  reportId : Int
deriving Repr, DecidableEq

structure ServerModel where
  folderNum : String → Option Int
  uploadData : Int → Option (List ParsedUpload)
  licenses : Int → Int → List ParsedLicense
  jobs : Int → Option (List ParsedJob)
  singleJob : Int → Nat → ParsedJob
  uploadFileNum : Option Int

/-- FossServer._getUploadData (server.py lines 155-182): None when the
response carries no aaData, None when the parsed upload list is empty,
otherwise the first upload whose name equals (exact) or contains
(not exact) the searched name. -/
def _getUploadData (srv : ServerModel) (folderNum : Int) (uploadName : String)
    (exact : Bool) : Option ParsedUpload :=
  match srv.uploadData folderNum with
  | none => none
  | some parsedUploads =>
      if parsedUploads = [] then none
      else parsedUploads.find? (fun u =>
        if exact then uploadName == u.name else strIn uploadName u.name)

/-- FossServer.GetUploadNum (server.py lines 184-196) with the default
exact=True used by every task: -1 when no upload data is found. -/
def GetUploadNum (srv : ServerModel) (folderNum : Int) (uploadName : String) : Int :=
  match _getUploadData srv folderNum uploadName true with
  | none => -1
  | some u => u._id

/-- FossServer.GetLicenses (server.py lines 260-271). -/
def GetLicenses (srv : ServerModel) (uploadNum itemNum : Int) : List ParsedLicense :=
  srv.licenses uploadNum itemNum

/-- FossServer.FindLicenseInParsedList (server.py lines 288-300): the
first ParsedLicense with the given name, None when absent. -/
def FindLicenseInParsedList (parsedLicenses : List ParsedLicense)
    (licName : String) : Option ParsedLicense :=
  parsedLicenses.find? (fun lic => lic.name == licName)

/-- FossServer._getMostRecentAgentJobNum (server.py lines 324-341):
-1 when the job listing is None or empty, otherwise the id of the first
job (newest first) whose agent matches, and -1 when none matches. -/
def _getMostRecentAgentJobNum (srv : ServerModel) (uploadNum : Int)
    (agent : String) : Int :=
  match srv.jobs uploadNum with
  | none => -1
  | some js =>
      if js = [] then -1
      else
        match js.find? (fun job => job.agent == agent) with
        | some job => job._id
        | none => -1

/-- FossServer._getJobSingleData (server.py lines 343-348) at the t-th
query of the enclosing loop. -/
def _getJobSingleData (srv : ServerModel) (jobNum : Int) (t : Nat) : ParsedJob :=
  srv.singleJob jobNum t

/-- The status test of FossServer._isJobDoneYet (server.py lines 353-357):
true when the status equals Completed, true when it contains killed,
false otherwise. -/
def isDoneStatus (status : String) : Bool :=
  if status == "Completed" then true
  else if strIn "killed" status then true
  else false

/-- FossServer._isJobDoneYet (server.py lines 350-357) at the t-th status
query of the enclosing loop. -/
def _isJobDoneYet (srv : ServerModel) (jobNum : Int) (t : Nat) : Bool :=
  isDoneStatus (_getJobSingleData srv jobNum t).status

/-- The while loop of FossServer.WaitUntilAgentIsDone (server.py lines
529-530), fuel-bounded, entered at query index t: checks the job status
once per iteration and sleeps pollSeconds after every non-terminal
observation.  Returns the index of the first terminal observation, which
equals the number of sleeps performed; the number of status queries
issued is one more.  None when the fuel runs out before a terminal
status is observed. -/
def waitLoop (srv : ServerModel) (jobNum : Int) : Nat → Nat → Option Nat
  | 0, _ => none
  | fuel + 1, t =>
      if _isJobDoneYet srv jobNum t then some t
      else waitLoop srv jobNum fuel (t + 1)

/-- FossServer.WaitUntilAgentIsDone (server.py lines 518-530). -/
def WaitUntilAgentIsDone (srv : ServerModel) (uploadNum : Int) (agent : String)
    (fuel : Nat) : Option Nat :=
  waitLoop srv (_getMostRecentAgentJobNum srv uploadNum agent) fuel 0

/-- FossServer.IsAgentDone (server.py lines 508-516). -/
def IsAgentDone (srv : ServerModel) (uploadNum : Int) (agent : String) : Bool :=
  _isJobDoneYet srv (_getMostRecentAgentJobNum srv uploadNum agent) 0

/-- FossServer.GetSPDXTVReport (server.py lines 420-444) without the
on-disk write: False unless the most recent spdx2tv job is a Completed
spdx2tv job, True after downloading the report otherwise. -/
def GetSPDXTVReport (srv : ServerModel) (uploadNum : Int) : Bool :=
  let jobNum := _getMostRecentAgentJobNum srv uploadNum "spdx2tv"
  let job := _getJobSingleData srv jobNum 0
  if job.agent == "spdx2tv" && job.status == "Completed" then true else false

/-!
  Workflow tasks (fossdriver/tasks.py).

  Each run() is embedded as a function of the server oracle and the task
  parameters, returning its Python return value together with a record of
  the server-mutating operations it performed.  Waiting on an agent
  (WaitUntilAgentIsDone) mutates nothing, so the task embeddings record
  the waits they reach and assume each reached wait terminates; the wait
  loop itself is verified separately above.  A non-boolean return value
  and an escaping Python exception are both representable, since the
  source can produce either.
-/

/-- BulkTextMatchAction (server.py lines 25-33): one (licenseId,
licenseName, action) triple handed to StartBulkTextMatch. -/
structure BulkTextMatchAction where
  licenseId : Int
  licenseName : String
  action : String
deriving Repr, DecidableEq

/-- A Python exception escaping a task: the AttributeError raised by
evaluating lic._id when lic is None (tasks.py line 230). -/
inductive PyExc
  | attributeError
deriving Repr, DecidableEq

/-- A Python return value of a run() method: the source returns False,
True, or (tasks.py line 254) the integer -1. -/
inductive RunVal
  | bool (b : Bool)
  | int (i : Int)
deriving Repr, DecidableEq

instance {ε α : Type} [DecidableEq ε] [DecidableEq α] : DecidableEq (Except ε α) :=
  fun a b =>
    match a, b with
    | .error e1, .error e2 =>
        if h : e1 = e2 then .isTrue (by rw [h])
        else .isFalse (by intro hc; cases hc; exact h rfl)
    | .error _, .ok _ => .isFalse (by intro hc; cases hc)
    | .ok _, .error _ => .isFalse (by intro hc; cases hc)
    | .ok a1, .ok a2 =>
        if h : a1 = a2 then .isTrue (by rw [h])
        else .isFalse (by intro hc; cases hc; exact h rfl)

/-- Server-mutating operations recorded by a task run: start operations
(tagged with the endpoint or agent involved and the upload or parent
folder id they were issued for) and the agent waits reached. -/
structure TaskEffects where
  started : List (String × Int)
  waits : List (Int × String)
deriving Repr, DecidableEq

def noEffects : TaskEffects := { started := [], waits := [] }

/-- CreateFolder.run (tasks.py lines 27-43). -/
def CreateFolder_run (srv : ServerModel) (newFolderName parentFolderName : String) :
    Bool × TaskEffects :=
  match srv.folderNum parentFolderName with
  | none => (false, noEffects)
  | some parentFolderNum =>
      if parentFolderNum = -1 then (false, noEffects)
      else (true, { started := [("folder_create " ++ newFolderName, parentFolderNum)],
                    waits := [] })

/-- Upload.run (tasks.py lines 54-76).  The UploadFile call (the
upload-initiation request) is recorded in started; its parsed result is
the uploadFileNum oracle. -/
def Upload_run (srv : ServerModel) (filePath folderName : String) :
    Bool × TaskEffects :=
  match srv.folderNum folderName with
  | none => (false, noEffects)
  | some folderNum =>
      if folderNum = -1 then (false, noEffects)
      else
        let eff : TaskEffects :=
          { started := [("upload_file " ++ filePath, folderNum)], waits := [] }
        match srv.uploadFileNum with
        | none => (false, eff)
        | some newUploadNum =>
            if newUploadNum < 1 then (false, eff)
            else (true, { eff with
              waits := [(newUploadNum, "ununpack"), (newUploadNum, "adj2nest")] })

/-- Scanners.run (tasks.py lines 87-109). -/
def Scanners_run (srv : ServerModel) (uploadName folderName : String) :
    Bool × TaskEffects :=
  match srv.folderNum folderName with
  | none => (false, noEffects)
  | some folderNum =>
      if folderNum = -1 then (false, noEffects)
      else
        let uploadNum := GetUploadNum srv folderNum uploadName
        if uploadNum = -1 then (false, noEffects)
        else (true, { started := [("agent_monk agent_nomos", uploadNum)],
                      waits := [(uploadNum, "monk"), (uploadNum, "nomos")] })

/-- Copyright.run (tasks.py lines 120-141). -/
def Copyright_run (srv : ServerModel) (uploadName folderName : String) :
    Bool × TaskEffects :=
  match srv.folderNum folderName with
  | none => (false, noEffects)
  | some folderNum =>
      if folderNum = -1 then (false, noEffects)
      else
        let uploadNum := GetUploadNum srv folderNum uploadName
        if uploadNum = -1 then (false, noEffects)
        else (true, { started := [("agent_copyright", uploadNum)],
                      waits := [(uploadNum, "copyright")] })

/-- Reuse.run (tasks.py lines 154-185). -/
def Reuse_run (srv : ServerModel)
    (newUploadName newFolderName oldUploadName oldFolderName : String) :
    Bool × TaskEffects :=
  match srv.folderNum oldFolderName with
  | none => (false, noEffects)
  | some oldFolderNum =>
      if oldFolderNum = -1 then (false, noEffects)
      else
        let oldUploadNum := GetUploadNum srv oldFolderNum oldUploadName
        if oldUploadNum = -1 then (false, noEffects)
        else
          match srv.folderNum newFolderName with
          | none => (false, noEffects)
          | some newFolderNum =>
              if newFolderNum = -1 then (false, noEffects)
              else
                let newUploadNum := GetUploadNum srv newFolderNum newUploadName
                if newUploadNum = -1 then (false, noEffects)
                else (true, { started := [("agent_reuser", newUploadNum)],
                              waits := [(newUploadNum, "reuser")] })

/-- SPDXTV.run (tasks.py lines 285-308). -/
def SPDXTV_run (srv : ServerModel) (uploadName folderName : String) :
    Bool × TaskEffects :=
  match srv.folderNum folderName with
  | none => (false, noEffects)
  | some folderNum =>
      if folderNum = -1 then (false, noEffects)
      else
        let uploadNum := GetUploadNum srv folderNum uploadName
        if uploadNum = -1 then (false, noEffects)
        else (GetSPDXTVReport srv uploadNum,
              { started := [("spdx2tv", uploadNum)],
                waits := [(uploadNum, "spdx2tv")] })

/-!
  BulkTextMatch (tasks.py lines 187-273).  The instance field
  self.parsedLicenses (the memoized license list) is threaded explicitly;
  the number of GetLicenses fetches performed is counted.
-/

/-- BulkTextMatch.add (tasks.py lines 197-200): appends an add tuple to
the queued actions, touching nothing else. -/
def BulkTextMatch_add (actionTuples : List (String × String))
    (licenseName : String) : List (String × String) :=
  actionTuples ++ [(licenseName, "add")]

/-- BulkTextMatch.remove (tasks.py lines 202-205): appends a remove tuple
to the queued actions, touching nothing else. -/
def BulkTextMatch_remove (actionTuples : List (String × String))
    (licenseName : String) : List (String × String) :=
  actionTuples ++ [(licenseName, "remove")]

/-- BulkTextMatch._findLicenseID (tasks.py lines 207-230): returns the
license id (or -1 on a failed lookup of folder, upload data, or an empty
fetched list), the new value of self.parsedLicenses, and the number of
GetLicenses fetches performed (0 or 1).  When the searched name is absent
from the list, the source evaluates lic._id with lic = None, raising an
AttributeError. -/
def _findLicenseID (srv : ServerModel) (folderName uploadName : String)
    (cache : Option (List ParsedLicense)) (licenseName : String) :
    Except PyExc Int × Option (List ParsedLicense) × Nat :=
  match cache with
  | some parsedLicenses =>
      (match FindLicenseInParsedList parsedLicenses licenseName with
       | none => (.error .attributeError, some parsedLicenses, 0)
       | some lic => (.ok lic._id, some parsedLicenses, 0))
  | none =>
      match srv.folderNum folderName with
      | none => (.ok (-1), none, 0)
      | some folderNum =>
          if folderNum = -1 then (.ok (-1), none, 0)
          else
            match _getUploadData srv folderNum uploadName false with
            | none => (.ok (-1), none, 0)
            | some u =>
                let parsedLicenses := GetLicenses srv u._id u.topTreeItemId
                if parsedLicenses = [] then (.ok (-1), some parsedLicenses, 1)
                else
                  match FindLicenseInParsedList parsedLicenses licenseName with
                  | none => (.error .attributeError, some parsedLicenses, 1)
                  | some lic => (.ok lic._id, some parsedLicenses, 1)

/-- BulkTextMatch._makeRealAction (tasks.py lines 232-238): None when the
license id came back -1, otherwise the BulkTextMatchAction built by
MakeBulkTextMatchAction (server.py lines 472-479). -/
def _makeRealAction (srv : ServerModel) (folderName uploadName : String)
    (cache : Option (List ParsedLicense)) (licenseName actionType : String) :
    Except PyExc (Option BulkTextMatchAction) × Option (List ParsedLicense) × Nat :=
  match _findLicenseID srv folderName uploadName cache licenseName with
  | (.error e, c, n) => (.error e, c, n)
  | (.ok licenseId, c, n) =>
      if licenseId = -1 then (.ok none, c, n)
      else (.ok (some { licenseId := licenseId, licenseName := licenseName,
                        action := actionType }), c, n)

/-- The action-translation loop of BulkTextMatch.run (tasks.py lines
257-263): folds _makeRealAction over the queued action tuples in order.
Result .ok none stands for the return False taken when an action could
not be created; acc accumulates the number of fetches performed. -/
def buildActionList (srv : ServerModel) (folderName uploadName : String) :
    List (String × String) → Option (List ParsedLicense) → Nat →
    Except PyExc (Option (List BulkTextMatchAction)) × Option (List ParsedLicense) × Nat
  | [], cache, acc => (.ok (some []), cache, acc)
  | (licenseName, actionType) :: rest, cache, acc =>
      match _makeRealAction srv folderName uploadName cache licenseName actionType with
      | (.error e, c, n) => (.error e, c, acc + n)
      | (.ok none, c, n) => (.ok none, c, acc + n)
      | (.ok (some a), c, n) =>
          match buildActionList srv folderName uploadName rest c (acc + n) with
          | (.ok (some rest2), c2, acc2) => (.ok (some (a :: rest2)), c2, acc2)
          | other => other

/-- Effects of one BulkTextMatch.run: number of GetLicenses fetches, the
StartBulkTextMatch call with its arguments (refText, tree item id, action
list) when reached, and whether the monkbulk wait was reached. -/
structure BTMEffects where
  licenseFetches : Nat
  startedBulkMatch : Option (String × Int × List BulkTextMatchAction)
  waitedMonkbulk : Bool
deriving Repr, DecidableEq

def noBTMEffects : BTMEffects :=
  { licenseFetches := 0, startedBulkMatch := none, waitedMonkbulk := false }

/-- BulkTextMatch.run (tasks.py lines 240-273), entered with the memoized
license list cache0 (None on a fresh instance).  Returns the Python
outcome (a value or an escaping exception), the effects, and the final
memoized list.  Note the source returns the integer -1, not False, when
the upload-data lookup comes back None (tasks.py line 254). -/
def BulkTextMatch_run (srv : ServerModel) (uploadName folderName refText : String)
    (actionTuples : List (String × String)) (cache0 : Option (List ParsedLicense)) :
    Except PyExc RunVal × BTMEffects × Option (List ParsedLicense) :=
  match srv.folderNum folderName with
  | none => (.ok (.bool false), noBTMEffects, cache0)
  | some folderNum =>
      if folderNum = -1 then (.ok (.bool false), noBTMEffects, cache0)
      else
        let uploadNum := GetUploadNum srv folderNum uploadName
        if uploadNum = -1 then (.ok (.bool false), noBTMEffects, cache0)
        else
          match _getUploadData srv folderNum uploadName false with
          | none => (.ok (.int (-1)), noBTMEffects, cache0)
          | some u =>
              match buildActionList srv folderName uploadName actionTuples cache0 0 with
              | (.error e, c, f) =>
                  (.error e, { licenseFetches := f, startedBulkMatch := none,
                               waitedMonkbulk := false }, c)
              | (.ok none, c, f) =>
                  (.ok (.bool false), { licenseFetches := f, startedBulkMatch := none,
                                        waitedMonkbulk := false }, c)
              | (.ok (some actionList), c, f) =>
                  (.ok (.bool true),
                   { licenseFetches := f,
                     startedBulkMatch := some (refText, u.topTreeItemId, actionList),
                     waitedMonkbulk := true }, c)

/-!
  Session-layer lemmas and claims C1, C2, C3.
-/

/-- The spec words for session-expiry detection, for the refinement
comparison of claim C3.  Modelled from the spec: a session-expired
sentinel is a known substring present in the response body, or the
response flagged not-OK. -/
def specSessionExpired (r : Resp) : Bool :=
  (match r.text with
   | none => false
   | some t => strIn NOT_LOGGED_IN_RESPONSE t) || !r.ok

/-- A transport that raises a connection error on every attempt. -/
def outsAllConn : Nat → Outcome := fun _ => Outcome.connError

/-- A transport whose every response is OK with a sentinel-free body. -/
def outsOK : Nat → Outcome := fun _ => Outcome.resp { ok := true, text := some "fine" }

/-- A transport whose every response is not-OK and carries the
session-expired sentinel in its body. -/
def outsExpiredNotOK : Nat → Outcome :=
  fun _ => Outcome.resp { ok := false, text := some NOT_LOGGED_IN_RESPONSE }

/-- A transport whose every response is OK and carries the
session-expired sentinel in its body. -/
def outsExpiredOK : Nat → Outcome :=
  fun _ => Outcome.resp { ok := true, text := some NOT_LOGGED_IN_RESPONSE }

/-- A Login behavior that returns normally leaving the counter alone. -/
def loginNoop : Nat → Nat → LoginBehavior := fun _ la => LoginBehavior.ret la

theorem checkLoggedIn_false_iff (r : Resp) :
    checkLoggedIn r = false ↔
      (r.ok = true ∧ ∃ t, r.text = some t ∧ strIn NOT_LOGGED_IN_RESPONSE t = true) := by
  unfold checkLoggedIn
  cases ht : r.text with
  | none => simp [ht]
  | some t => simp [ht]

theorem retryStep_classify (outs : Nat → Outcome) (login : Nat → Nat → LoginBehavior)
    (st : RRState) :
    (∃ st1, retryStep outs login st = .again st1 ∧
            st1.connectionRetries = st.connectionRetries) ∨
    (∃ r st1, retryStep outs login st = .done (.success r) st1 ∧
              st1.connectionRetries = st.connectionRetries) ∨
    (retryStep outs login st = .done .maxLoginExceeded st ∧
      st.loginAttempts ≥ MAX_LOGIN_ATTEMPTS) ∨
    (retryStep outs login st = .done (.reraise st.exc) st ∧
      ¬ st.connectionRetries < 5) := by
  by_cases hg : st.connectionRetries < 5 ∧ st.loginAttempts ≤ MAX_LOGIN_ATTEMPTS
  · simp only [retryStep, if_pos hg]
    cases ho : outs st.requests with
    | connError => exact Or.inl ⟨_, rfl, rfl⟩
    | otherError => exact Or.inl ⟨_, rfl, rfl⟩
    | resp r =>
        by_cases hc : checkLoggedIn r
        · simp only [hc, if_true]
          exact Or.inr (Or.inl ⟨r, _, rfl, rfl⟩)
        · simp only [Bool.not_eq_true] at hc
          simp only [hc, Bool.false_eq_true, if_false]
          cases hl : login (st.logins + 1) (st.loginAttempts + 1) with
          | ret la2 => exact Or.inl ⟨_, rfl, rfl⟩
          | raises e la2 => exact Or.inl ⟨_, rfl, rfl⟩
  · by_cases hla : st.loginAttempts ≥ MAX_LOGIN_ATTEMPTS
    · refine Or.inr (Or.inr (Or.inl ⟨?_, hla⟩))
      rw [retryStep, if_neg hg, if_pos hla]
    · refine Or.inr (Or.inr (Or.inr ⟨?_, ?_⟩))
      · rw [retryStep, if_neg hg, if_neg hla]
      · intro hcr
        exact hg ⟨hcr, Nat.le_of_lt_succ (Nat.lt_succ_of_lt (Nat.lt_of_not_le hla))⟩

theorem retryLoop_allConn (login : Nat → Nat → LoginBehavior) :
    ∀ (fuel : Nat) (st : RRState), st.connectionRetries = 0 → st.loginAttempts = 0 →
      (retryLoop outsAllConn login fuel st).1 = .outOfFuel ∧
      (retryLoop outsAllConn login fuel st).2.connectionRetries = 0 ∧
      (retryLoop outsAllConn login fuel st).2.requests = st.requests + fuel := by
  intro fuel
  induction fuel with
  | zero => intro st hcr hla; exact ⟨rfl, hcr, rfl⟩
  | succ n ih =>
      intro st hcr hla
      have hstep : retryStep outsAllConn login st =
          .again { st with requests := st.requests + 1, sleeps := st.sleeps + 1,
                           exc := some .connErr } := by
        rw [retryStep, if_pos ⟨by omega, by omega⟩]
        rfl
      rw [retryLoop, hstep]
      have h2 := ih { st with requests := st.requests + 1, sleeps := st.sleeps + 1,
                              exc := some .connErr } hcr hla
      refine ⟨h2.1, h2.2.1, ?_⟩
      rw [h2.2.2]
      show st.requests + 1 + n = st.requests + (n + 1)
      omega

theorem retryLoop_no_reraise (outs : Nat → Outcome) (login : Nat → Nat → LoginBehavior) :
    ∀ (fuel : Nat) (st : RRState), st.connectionRetries = 0 →
      ∀ e, (retryLoop outs login fuel st).1 ≠ .reraise e := by
  intro fuel
  induction fuel with
  | zero => intro st hcr e h; exact RRResult.noConfusion h
  | succ n ih =>
      intro st hcr e
      rcases retryStep_classify outs login st with
        ⟨st1, hs, hc1⟩ | ⟨r, st1, hs, hc1⟩ | ⟨hs, _⟩ | ⟨_, hlt⟩
      · rw [retryLoop, hs]
        exact ih st1 (hc1.trans hcr) e
      · rw [retryLoop, hs]
        intro h; exact RRResult.noConfusion h
      · rw [retryLoop, hs]
        intro h; exact RRResult.noConfusion h
      · omega

/-- C1: the claim says _retryRequest gives up after 5 consecutive
connection failures and surfaces the connection error.  The source never
increments its connectionRetries counter, so on a transport that fails
with a connection error on every attempt the loop runs forever (it
consumes any amount of fuel, with connectionRetries still 0 and one
request per fuel unit), and from a fresh call the re-raise branch that
would surface the connection error is unreachable for every transport. -/
theorem C1_connection_retry_unbounded :
    (∀ (fuel : Nat) (login : Nat → Nat → LoginBehavior),
      (retryRequest outsAllConn login fuel 0).1 = .outOfFuel ∧
      (retryRequest outsAllConn login fuel 0).2.connectionRetries = 0 ∧
      (retryRequest outsAllConn login fuel 0).2.requests = fuel) ∧
    (∀ (outs : Nat → Outcome) (login : Nat → Nat → LoginBehavior) (fuel la : Nat)
        (e : Option ExcKind),
      (retryRequest outs login fuel la).1 ≠ .reraise e) := by
  constructor
  · intro fuel login
    have h := retryLoop_allConn login fuel (initRRState 0) rfl rfl
    simpa [retryRequest, initRRState] using h
  · intro outs login fuel la e
    exact retryLoop_no_reraise outs login fuel (initRRState la) rfl e

/-- C2 counterexample: with the session counter at exactly 5 (the bound
the claim names), a call does not fail fast: it issues a network request
and, on a logged-in response, succeeds. -/
theorem C2_at_five_still_requests :
    (retryRequest outsOK loginNoop 2 MAX_LOGIN_ATTEMPTS).1 =
      .success { ok := true, text := some "fine" } ∧
    (retryRequest outsOK loginNoop 2 MAX_LOGIN_ATTEMPTS).2.requests = 1 := by
  decide

/-- C2 (amended): once the session counter exceeds MAX_LOGIN_ATTEMPTS
(that is, from 6 on), every call through the session layer fails fast
with the maximum-login-attempts-exceeded condition, touching nothing:
no network request, no sleep, no login attempt. -/
theorem C2_fail_fast_above_bound (outs : Nat → Outcome)
    (login : Nat → Nat → LoginBehavior) (fuel la : Nat)
    (h : la > MAX_LOGIN_ATTEMPTS) :
    retryRequest outs login (fuel + 1) la = (.maxLoginExceeded, initRRState la) := by
  have hstep : retryStep outs login (initRRState la) =
      .done .maxLoginExceeded (initRRState la) := by
    rw [retryStep, if_neg, if_pos]
    · exact Nat.le_of_lt h
    · intro hg
      exact absurd hg.2 (Nat.not_le_of_lt h)
  rw [retryRequest, retryLoop, hstep]

theorem C2_fail_fast_above_bound_witness :
    6 > MAX_LOGIN_ATTEMPTS ∧
    retryRequest outsOK loginNoop 1 6 = (.maxLoginExceeded, initRRState 6) :=
  ⟨by decide, C2_fail_fast_above_bound outsOK loginNoop 0 6 (by decide)⟩

/-- C3 counterexample: a response that is flagged not-OK and even carries
the session-expired sentinel in its body does not trigger the recovery
path: _checkLoggedIn reports the user as logged in, the response is
returned to the caller, and no login is performed, refuting the claimed
if-and-only-if condition (sentinel present or response not-OK). -/
theorem C3_notOK_response_no_recovery :
    specSessionExpired { ok := false, text := some NOT_LOGGED_IN_RESPONSE } = true ∧
    checkLoggedIn { ok := false, text := some NOT_LOGGED_IN_RESPONSE } = true ∧
    retryRequest outsExpiredNotOK loginNoop 2 0 =
      (.success { ok := false, text := some NOT_LOGGED_IN_RESPONSE },
       { connectionRetries := 0, loginAttempts := 0, requests := 1, sleeps := 0,
         logins := 0, exc := none }) := by
  refine ⟨by decide, by decide, ?_⟩
  decide

/-- C3 (amended): for a response received inside the retry loop, the
session-expired recovery path (increment the login counter, invoke Login
once, continue the loop to retry the original call) is taken if and only
if the response is flagged OK, has a body, and the body contains the
session-expired sentinel; otherwise the response is returned as-is. -/
theorem C3_recovery_iff_ok_and_sentinel (outs : Nat → Outcome)
    (login : Nat → Nat → LoginBehavior) (st : RRState) (r : Resp)
    (hcr : st.connectionRetries < 5) (hla : st.loginAttempts ≤ MAX_LOGIN_ATTEMPTS)
    (ho : outs st.requests = .resp r) :
    (checkLoggedIn r = false ↔
      (r.ok = true ∧ ∃ t, r.text = some t ∧ strIn NOT_LOGGED_IN_RESPONSE t = true)) ∧
    ((∃ st1, retryStep outs login st = .again st1 ∧
             st1.logins = st.logins + 1 ∧
             st1.requests = st.requests + 1) ↔
      (r.ok = true ∧ ∃ t, r.text = some t ∧ strIn NOT_LOGGED_IN_RESPONSE t = true)) := by
  refine ⟨checkLoggedIn_false_iff r, ?_⟩
  rw [← checkLoggedIn_false_iff r]
  constructor
  · rintro ⟨st1, hs, hl1, _⟩
    by_cases hc : checkLoggedIn r
    · rw [retryStep, if_pos ⟨hcr, hla⟩, ho] at hs
      simp [hc] at hs
    · simpa using hc
  · intro hc
    rw [retryStep, if_pos ⟨hcr, hla⟩, ho]
    simp only [hc, Bool.false_eq_true, if_false]
    cases hl : login (st.logins + 1) (st.loginAttempts + 1) with
    | ret la2 => exact ⟨_, rfl, rfl, rfl⟩
    | raises e la2 => exact ⟨_, rfl, rfl, rfl⟩

theorem C3_recovery_iff_ok_and_sentinel_witness :
    ((initRRState 0).connectionRetries < 5 ∧
     (initRRState 0).loginAttempts ≤ MAX_LOGIN_ATTEMPTS ∧
     outsExpiredOK (initRRState 0).requests =
       .resp { ok := true, text := some NOT_LOGGED_IN_RESPONSE }) ∧
    (∃ st1, retryStep outsExpiredOK loginNoop (initRRState 0) = .again st1 ∧
            st1.logins = (initRRState 0).logins + 1 ∧
            st1.requests = (initRRState 0).requests + 1) :=
  ⟨⟨by decide, by decide, rfl⟩,
   ((C3_recovery_iff_ok_and_sentinel outsExpiredOK loginNoop (initRRState 0)
      { ok := true, text := some NOT_LOGGED_IN_RESPONSE }
      (by decide) (by decide) rfl).2).mpr (by decide)⟩

/-!
  Job tracker claims C6, C7, C10.
-/

theorem isDoneStatus_eq (s : String) :
    isDoneStatus s = (s == "Completed" || strIn "killed" s) := by
  unfold isDoneStatus
  by_cases h : s == "Completed"
  · simp [h]
  · simp only [h, Bool.false_eq_true, if_false, Bool.false_or]
    by_cases hk : strIn "killed" s
    · simp [hk]
    · simp only [Bool.not_eq_true] at hk
      simp [hk]

/-- C6: the job-done test returns true if and only if the fetched status
equals Completed or contains the substring killed; every other status
yields false. -/
theorem C6_isDone_iff (srv : ServerModel) (jobNum : Int) (t : Nat) :
    _isJobDoneYet srv jobNum t = true ↔
      ((srv.singleJob jobNum t).status = "Completed" ∨
        strIn "killed" (srv.singleJob jobNum t).status = true) := by
  unfold _isJobDoneYet _getJobSingleData
  rw [isDoneStatus_eq]
  simp [Bool.or_eq_true, beq_iff_eq]

theorem waitLoop_reaches (srv : ServerModel) (jobNum : Int) :
    ∀ (fuel t k : Nat), t ≤ k → k < t + fuel →
      (∀ i, t ≤ i → i < k → _isJobDoneYet srv jobNum i = false) →
      _isJobDoneYet srv jobNum k = true →
      waitLoop srv jobNum fuel t = some k := by
  intro fuel
  induction fuel with
  | zero => intro t k h1 h2 _ _; omega
  | succ n ih =>
      intro t k h1 h2 hbefore hdone
      by_cases ht : t = k
      · subst ht
        rw [waitLoop, if_pos hdone]
      · have htk : t < k := Nat.lt_of_le_of_ne h1 ht
        rw [waitLoop, if_neg (by simp [hbefore t (Nat.le_refl t) htk])]
        exact ih (t + 1) k htk (by omega) (fun i hi1 hi2 => hbefore i (by omega) hi2) hdone

/-- C7: the polling wait checks the job status once per iteration,
sleeping once after each non-terminal observation, and returns upon the
first terminal observation: if the first k observations are non-terminal
and observation k is terminal, the loop returns k, having slept exactly
k times and issued exactly k+1 status queries; and the result is the
same under any oracle that agrees on the first k+1 observations, so no
status query past the first terminal one can influence the call. -/
theorem C7_wait_returns_at_first_terminal (srv srv2 : ServerModel) (jobNum : Int)
    (fuel k : Nat)
    (hbefore : ∀ i, i < k → _isJobDoneYet srv jobNum i = false)
    (hdone : _isJobDoneYet srv jobNum k = true)
    (hfuel : k < fuel)
    (hagree : ∀ i, i ≤ k → srv2.singleJob jobNum i = srv.singleJob jobNum i) :
    waitLoop srv jobNum fuel 0 = some k ∧ waitLoop srv2 jobNum fuel 0 = some k := by
  have hsame : ∀ i, i ≤ k → _isJobDoneYet srv2 jobNum i = _isJobDoneYet srv jobNum i := by
    intro i hi
    unfold _isJobDoneYet _getJobSingleData
    rw [hagree i hi]
  constructor
  · exact waitLoop_reaches srv jobNum fuel 0 k (Nat.zero_le k) (by omega)
      (fun i _ hi2 => hbefore i hi2) hdone
  · exact waitLoop_reaches srv2 jobNum fuel 0 k (Nat.zero_le k) (by omega)
      (fun i _ hi2 => (hsame i (Nat.le_of_lt hi2)).trans (hbefore i hi2))
      ((hsame k (Nat.le_refl k)).trans hdone)

def jobRunning : ParsedJob :=
  { _id := 42, status := "Running", agent := "monk", reportId := -1 }

def jobCompleted : ParsedJob :=
  { _id := 42, status := "Completed", agent := "monk", reportId := -1 }

/-- A server whose single-job status endpoint reports Running on the
first two queries and Completed from the third on. -/
def srv7 : ServerModel :=
  { folderNum := fun _ => none
    uploadData := fun _ => none
    licenses := fun _ _ => []
    jobs := fun _ => some [jobRunning]
    singleJob := fun _ t => if t < 2 then jobRunning else jobCompleted
    uploadFileNum := none }

theorem C7_wait_returns_at_first_terminal_witness :
    ((∀ i, i < 2 → _isJobDoneYet srv7 42 i = false) ∧
     _isJobDoneYet srv7 42 2 = true ∧ 2 < 10) ∧
    waitLoop srv7 42 10 0 = some 2 :=
  ⟨⟨by decide, by decide, by decide⟩,
   (C7_wait_returns_at_first_terminal srv7 srv7 42 10 2 (by decide) (by decide)
      (by decide) (fun _ _ => rfl)).1⟩

/-- C10: when the job listing for an upload contains no job of the
requested agent, the most-recent-job lookup returns the sentinel -1, and
both IsAgentDone and WaitUntilAgentIsDone forward that -1 as the job id
of the single-job status query instead of reporting not-found to their
caller. -/
theorem C10_missing_agent_forwards_sentinel (srv : ServerModel) (uploadNum : Int)
    (agent : String) (fuel : Nat)
    (h : ∀ j ∈ (srv.jobs uploadNum).getD [], ¬ j.agent = agent) :
    _getMostRecentAgentJobNum srv uploadNum agent = -1 ∧
    IsAgentDone srv uploadNum agent = _isJobDoneYet srv (-1) 0 ∧
    WaitUntilAgentIsDone srv uploadNum agent fuel = waitLoop srv (-1) fuel 0 := by
  have hm : _getMostRecentAgentJobNum srv uploadNum agent = -1 := by
    unfold _getMostRecentAgentJobNum
    cases hj : srv.jobs uploadNum with
    | none => rfl
    | some js =>
        rw [hj] at h
        simp only [Option.getD_some] at h
        by_cases hempty : js = []
        · simp [hempty]
        · have hfind : js.find? (fun job => job.agent == agent) = none := by
            rw [List.find?_eq_none]
            intro x hx
            simpa using h x hx
          simp [hempty, hfind]
  refine ⟨hm, ?_, ?_⟩
  · unfold IsAgentDone
    rw [hm]
  · unfold WaitUntilAgentIsDone
    rw [hm]

/-- A server whose job listing for every upload holds a single nomos job,
so that a lookup for any other agent finds nothing. -/
def srv10 : ServerModel :=
  { folderNum := fun _ => none
    uploadData := fun _ => none
    licenses := fun _ _ => []
    jobs := fun _ => some [{ _id := 5, status := "Completed", agent := "nomos", reportId := -1 }]
    singleJob := fun j _ =>
      if j = -1 then { _id := -1, status := "Unknown", agent := "", reportId := -1 }
      else jobCompleted
    uploadFileNum := none }

theorem C10_missing_agent_forwards_sentinel_witness :
    (∀ j ∈ (srv10.jobs 99).getD [], ¬ j.agent = "monk") ∧
    _getMostRecentAgentJobNum srv10 99 "monk" = -1 ∧
    IsAgentDone srv10 99 "monk" = _isJobDoneYet srv10 (-1) 0 ∧
    WaitUntilAgentIsDone srv10 99 "monk" 3 = waitLoop srv10 (-1) 3 0 :=
  ⟨by decide,
   (C10_missing_agent_forwards_sentinel srv10 99 "monk" 3 (by decide)).1,
   (C10_missing_agent_forwards_sentinel srv10 99 "monk" 3 (by decide)).2.1,
   (C10_missing_agent_forwards_sentinel srv10 99 "monk" 3 (by decide)).2.2⟩

/-!
  Task-layer claims C4, C5, C8, C9.
-/

/-- A server holding one folder TestFolder with one upload pkg.tgz whose
license list contains only MIT. -/
def srv4 : ServerModel :=
  { folderNum := fun fn => if fn = "TestFolder" then some 3 else none
    uploadData := fun f =>
      if f = 3 then some [{ name := "pkg.tgz", _id := 10, topTreeItemId := 100 }] else none
    licenses := fun up item =>
      if up = 10 ∧ item = 100 then [{ name := "MIT", _id := 7 }] else []
    jobs := fun _ => none
    singleJob := fun _ _ => { _id := -1, status := "", agent := "", reportId := -1 }
    uploadFileNum := none }

/-- C4: the claim says every run() returns a boolean and converts all
non-fatal internal failures to false.  On a BulkTextMatch task whose
queued license name is absent from the fetched license list, run()
instead lets an AttributeError escape: _findLicenseID evaluates lic._id
on the None returned by FindLicenseInParsedList (tasks.py lines 229-230),
before any bulk-match start or wait is reached. -/
theorem C4_unresolved_license_name_raises :
    BulkTextMatch_run srv4 "pkg.tgz" "TestFolder" "ref text"
        [("NoSuchLicense", "add")] none =
      (.error .attributeError,
       { licenseFetches := 1, startedBulkMatch := none, waitedMonkbulk := false },
       some [{ name := "MIT", _id := 7 }]) := by
  decide

/-- A folder-name resolution that comes back with the not-found sentinel:
GetFolderNum returned None or -1 (the guard of every task). -/
def folderLookupFailed (srv : ServerModel) (folderName : String) : Prop :=
  srv.folderNum folderName = none ∨ srv.folderNum folderName = some (-1)

instance (srv : ServerModel) (folderName : String) :
    Decidable (folderLookupFailed srv folderName) := by
  unfold folderLookupFailed
  infer_instance

/-- C5: in every task variant, a folder-name or upload-name resolution
that yields the not-found sentinel (None or -1) makes run() return false
at once, with no server-mutating operation performed: no folder creation,
no upload initiation, no agent start, no wait. -/
theorem C5_resolution_failure_short_circuits (srv : ServerModel) :
    (∀ nfn pfn, folderLookupFailed srv pfn →
      CreateFolder_run srv nfn pfn = (false, noEffects)) ∧
    (∀ fp fn, folderLookupFailed srv fn →
      Upload_run srv fp fn = (false, noEffects)) ∧
    (∀ un fn, folderLookupFailed srv fn →
      Scanners_run srv un fn = (false, noEffects)) ∧
    (∀ un fn f, srv.folderNum fn = some f → f ≠ -1 → GetUploadNum srv f un = -1 →
      Scanners_run srv un fn = (false, noEffects)) ∧
    (∀ un fn, folderLookupFailed srv fn →
      Copyright_run srv un fn = (false, noEffects)) ∧
    (∀ un fn f, srv.folderNum fn = some f → f ≠ -1 → GetUploadNum srv f un = -1 →
      Copyright_run srv un fn = (false, noEffects)) ∧
    (∀ nun nfn oun ofn, folderLookupFailed srv ofn →
      Reuse_run srv nun nfn oun ofn = (false, noEffects)) ∧
    (∀ nun nfn oun ofn f1, srv.folderNum ofn = some f1 → f1 ≠ -1 →
      GetUploadNum srv f1 oun = -1 →
      Reuse_run srv nun nfn oun ofn = (false, noEffects)) ∧
    (∀ nun nfn oun ofn f1, srv.folderNum ofn = some f1 → f1 ≠ -1 →
      GetUploadNum srv f1 oun ≠ -1 → folderLookupFailed srv nfn →
      Reuse_run srv nun nfn oun ofn = (false, noEffects)) ∧
    (∀ nun nfn oun ofn f1 f2, srv.folderNum ofn = some f1 → f1 ≠ -1 →
      GetUploadNum srv f1 oun ≠ -1 → srv.folderNum nfn = some f2 → f2 ≠ -1 →
      GetUploadNum srv f2 nun = -1 →
      Reuse_run srv nun nfn oun ofn = (false, noEffects)) ∧
    (∀ un fn, folderLookupFailed srv fn →
      SPDXTV_run srv un fn = (false, noEffects)) ∧
    (∀ un fn f, srv.folderNum fn = some f → f ≠ -1 → GetUploadNum srv f un = -1 →
      SPDXTV_run srv un fn = (false, noEffects)) ∧
    (∀ un fn rt ats cache0, folderLookupFailed srv fn →
      BulkTextMatch_run srv un fn rt ats cache0 =
        (.ok (.bool false), noBTMEffects, cache0)) ∧
    (∀ un fn rt ats cache0 f, srv.folderNum fn = some f → f ≠ -1 →
      GetUploadNum srv f un = -1 →
      BulkTextMatch_run srv un fn rt ats cache0 =
        (.ok (.bool false), noBTMEffects, cache0)) := by
  refine ⟨?_, ?_, ?_, ?_, ?_, ?_, ?_, ?_, ?_, ?_, ?_, ?_, ?_, ?_⟩
  · rintro nfn pfn (hf | hf) <;> simp [CreateFolder_run, hf]
  · rintro fp fn (hf | hf) <;> simp [Upload_run, hf]
  · rintro un fn (hf | hf) <;> simp [Scanners_run, hf]
  · intro un fn f h1 h2 h3
    simp [Scanners_run, h1, h2, h3]
  · rintro un fn (hf | hf) <;> simp [Copyright_run, hf]
  · intro un fn f h1 h2 h3
    simp [Copyright_run, h1, h2, h3]
  · rintro nun nfn oun ofn (hf | hf) <;> simp [Reuse_run, hf]
  · intro nun nfn oun ofn f1 h1 h2 h3
    simp [Reuse_run, h1, h2, h3]
  · rintro nun nfn oun ofn f1 h1 h2 h3 (hf | hf) <;> simp [Reuse_run, h1, h2, h3, hf]
  · intro nun nfn oun ofn f1 f2 h1 h2 h3 h4 h5 h6
    simp [Reuse_run, h1, h2, h3, h4, h5, h6]
  · rintro un fn (hf | hf) <;> simp [SPDXTV_run, hf]
  · intro un fn f h1 h2 h3
    simp [SPDXTV_run, h1, h2, h3]
  · rintro un fn rt ats cache0 (hf | hf) <;> simp [BulkTextMatch_run, hf]
  · intro un fn rt ats cache0 f h1 h2 h3
    simp [BulkTextMatch_run, h1, h2, h3]

/-- A server that knows no folder at all. -/
def srv5a : ServerModel :=
  { folderNum := fun _ => none
    uploadData := fun _ => none
    licenses := fun _ _ => []
    jobs := fun _ => none
    singleJob := fun _ _ => jobCompleted
    uploadFileNum := none }

/-- A server with a folder numbered 3 whose upload listing is empty, so
every upload-name lookup fails. -/
def srv5b : ServerModel :=
  { folderNum := fun _ => some 3
    uploadData := fun _ => some []
    licenses := fun _ _ => []
    jobs := fun _ => none
    singleJob := fun _ _ => jobCompleted
    uploadFileNum := none }

theorem C5_resolution_failure_short_circuits_witness :
    (folderLookupFailed srv5a "Burrow" ∧
     Upload_run srv5a "/tmp/code.tgz" "Burrow" = (false, noEffects)) ∧
    (srv5b.folderNum "Folder" = some 3 ∧ (3 : Int) ≠ -1 ∧
     GetUploadNum srv5b 3 "pkg" = -1 ∧
     Scanners_run srv5b "pkg" "Folder" = (false, noEffects)) :=
  ⟨⟨Or.inl rfl,
    (C5_resolution_failure_short_circuits srv5a).2.1 "/tmp/code.tgz" "Burrow"
      (Or.inl rfl)⟩,
   ⟨rfl, by decide, by decide,
    (C5_resolution_failure_short_circuits srv5b).2.2.2.1 "pkg" "Folder" 3 rfl
      (by decide) (by decide)⟩⟩

theorem buildActionList_cached (srv : ServerModel) (fn un : String) :
    ∀ (ats : List (String × String)) (l : List ParsedLicense) (acc : Nat),
      (buildActionList srv fn un ats (some l) acc).2.2 = acc ∧
      (buildActionList srv fn un ats (some l) acc).2.1 = some l := by
  intro ats
  induction ats with
  | nil => intro l acc; exact ⟨rfl, rfl⟩
  | cons p rest ih =>
      intro l acc
      obtain ⟨n, a⟩ := p
      simp only [buildActionList, _makeRealAction, _findLicenseID]
      cases hfind : FindLicenseInParsedList l n with
      | none => simp [hfind]
      | some lic =>
          by_cases hid : lic._id = -1
          · simp [hfind, hid]
          · have hrec := ih l (acc + 0)
            simp only [hfind, hid, if_false, if_neg hid]
            rcases hb : buildActionList srv fn un rest (some l) (acc + 0) with ⟨res, c, acc2⟩
            rw [hb] at hrec
            simp only at hrec
            cases res with
            | error e => simpa [hb] using hrec
            | ok o =>
                cases o with
                | none => simpa [hb] using hrec
                | some rest2 => simpa [hb] using hrec

theorem buildActionList_fresh (srv : ServerModel) (fn un : String)
    (ats : List (String × String)) (acc : Nat) :
    (buildActionList srv fn un ats none acc).2.2 ≤ acc + 1 := by
  cases ats with
  | nil => simp [buildActionList]
  | cons p rest =>
      obtain ⟨n, a⟩ := p
      simp only [buildActionList, _makeRealAction, _findLicenseID]
      cases hfo : srv.folderNum fn with
      | none => simp
      | some f =>
          by_cases hf : f = -1
          · simp [hf]
          · simp only [hf, if_false, if_neg hf]
            cases hup : _getUploadData srv f un false with
            | none => simp
            | some u =>
                by_cases hl : GetLicenses srv u._id u.topTreeItemId = []
                · simp [hl]
                · simp only [hl, if_false, if_neg hl]
                  cases hfind : FindLicenseInParsedList (GetLicenses srv u._id u.topTreeItemId) n with
                  | none => simp
                  | some lic =>
                      by_cases hid : lic._id = -1
                      · simp [hid]
                      · simp only [hid, if_false, if_neg hid]
                        have hrec := buildActionList_cached srv fn un rest
                          (GetLicenses srv u._id u.topTreeItemId) (acc + 1)
                        rcases hb : buildActionList srv fn un rest
                            (some (GetLicenses srv u._id u.topTreeItemId)) (acc + 1) with
                          ⟨res, c, acc2⟩
                        rw [hb] at hrec
                        simp only at hrec
                        cases res with
                        | error e => simp [hb, hrec.1]
                        | ok o =>
                            cases o with
                            | none => simp [hb, hrec.1]
                            | some rest2 => simp [hb, hrec.1]

/-- C8: one BulkTextMatch run fetches the license list from the server at
most once, however many add/remove actions were queued beforehand; and
when the memoized list is already present at entry, no fetch at all is
performed (every lookup uses the memoized list). -/
theorem C8_license_list_fetched_at_most_once (srv : ServerModel)
    (un fn rt : String) (ats : List (String × String)) :
    (BulkTextMatch_run srv un fn rt ats none).2.1.licenseFetches ≤ 1 ∧
    (∀ l, (BulkTextMatch_run srv un fn rt ats (some l)).2.1.licenseFetches = 0) := by
  have hrun : ∀ (cache0 : Option (List ParsedLicense)) (bound : Nat),
      (buildActionList srv fn un ats cache0 0).2.2 ≤ bound →
      (BulkTextMatch_run srv un fn rt ats cache0).2.1.licenseFetches ≤ bound := by
    intro cache0 bound hb
    unfold BulkTextMatch_run
    cases hfo : srv.folderNum fn with
    | none => simp [noBTMEffects]
    | some f =>
        by_cases hf : f = -1
        · simp [hf, noBTMEffects]
        · simp only [hf, if_false, if_neg hf]
          by_cases hun : GetUploadNum srv f un = -1
          · simp [hun, noBTMEffects]
          · simp only [hun, if_false, if_neg hun]
            cases hup : _getUploadData srv f un false with
            | none => simp [noBTMEffects]
            | some u =>
                rcases hbl : buildActionList srv fn un ats cache0 0 with ⟨res, c, fct⟩
                rw [hbl] at hb
                simp only at hb
                cases res with
                | error e => simpa using hb
                | ok o =>
                    cases o with
                    | none => simpa using hb
                    | some acts => simpa using hb
  constructor
  · exact hrun none 1 (by simpa using buildActionList_fresh srv fn un ats 0)
  · intro l
    have h := hrun (some l) 0 (by simp [(buildActionList_cached srv fn un ats l 0).1])
    omega

/-- The license id that the source lookup yields for a name: the _id of
the first license with that name, -1 when absent. -/
def licIdOf (lics : List ParsedLicense) (n : String) : Int :=
  match FindLicenseInParsedList lics n with
  | some lic => lic._id
  | none => -1

/-- The BulkTextMatchAction that one queued (licenseName, action) tuple
translates to against a given license list. -/
def actOf (lics : List ParsedLicense) (p : String × String) : BulkTextMatchAction :=
  { licenseId := licIdOf lics p.1, licenseName := p.1, action := p.2 }

theorem buildActionList_resolves_cached (srv : ServerModel) (fn un : String)
    (lics : List ParsedLicense) :
    ∀ (ats : List (String × String)) (acc : Nat),
      (∀ p ∈ ats, licIdOf lics p.1 ≠ -1) →
      buildActionList srv fn un ats (some lics) acc =
        (.ok (some (ats.map (actOf lics))), some lics, acc) := by
  intro ats
  induction ats with
  | nil => intro acc _; simp [buildActionList]
  | cons p rest ih =>
      intro acc h8
      obtain ⟨n, a⟩ := p
      have hhead : licIdOf lics n ≠ -1 := h8 (n, a) (List.mem_cons_self _ _)
      cases hfind : FindLicenseInParsedList lics n with
      | none => exact absurd (by simp [licIdOf, hfind]) hhead
      | some lic =>
          have hid : lic._id ≠ -1 := by
            simpa [licIdOf, hfind] using hhead
          simp only [buildActionList, _makeRealAction, _findLicenseID, hfind,
                     if_neg hid]
          rw [ih (acc + 0) (fun q hq => h8 q (List.mem_cons_of_mem _ hq))]
          simp [actOf, licIdOf, hfind]

theorem buildActionList_resolves_fresh (srv : ServerModel) (fn un : String)
    (f : Int) (u : ParsedUpload) (lics : List ParsedLicense)
    (h1 : srv.folderNum fn = some f) (h2 : f ≠ -1)
    (h5 : _getUploadData srv f un false = some u)
    (hl : GetLicenses srv u._id u.topTreeItemId = lics) (h7 : lics ≠ [])
    (ats : List (String × String)) (h8 : ∀ p ∈ ats, licIdOf lics p.1 ≠ -1) :
    (buildActionList srv fn un ats none 0).1 = .ok (some (ats.map (actOf lics))) := by
  cases ats with
  | nil => simp [buildActionList]
  | cons p rest =>
      obtain ⟨n, a⟩ := p
      have hhead : licIdOf lics n ≠ -1 := h8 (n, a) (List.mem_cons_self _ _)
      cases hfind : FindLicenseInParsedList lics n with
      | none => exact absurd (by simp [licIdOf, hfind]) hhead
      | some lic =>
          have hid : lic._id ≠ -1 := by
            simpa [licIdOf, hfind] using hhead
          simp only [buildActionList, _makeRealAction, _findLicenseID, h1,
                     if_neg h2, h5, hl, if_neg h7, hfind, if_neg hid]
          rw [buildActionList_resolves_cached srv fn un lics rest (0 + 1)
                (fun q hq => h8 q (List.mem_cons_of_mem _ hq))]
          simp [actOf, licIdOf, hfind]

/-- C9: when every queued license name resolves in the fetched license
list, run() translates the queued (name, action) tuples, in queue order,
into (licenseId, licenseName, action) triples and passes them to the
bulk-match start operation, and returns True. -/
theorem C9_actions_translated_in_order (srv : ServerModel)
    (un fn rt : String) (ats : List (String × String)) (f : Int)
    (u0 u : ParsedUpload)
    (h1 : srv.folderNum fn = some f) (h2 : f ≠ -1)
    (h3 : _getUploadData srv f un true = some u0) (h4 : u0._id ≠ -1)
    (h5 : _getUploadData srv f un false = some u)
    (h7 : GetLicenses srv u._id u.topTreeItemId ≠ [])
    (h8 : ∀ p ∈ ats, licIdOf (GetLicenses srv u._id u.topTreeItemId) p.1 ≠ -1) :
    (BulkTextMatch_run srv un fn rt ats none).1 = .ok (.bool true) ∧
    (BulkTextMatch_run srv un fn rt ats none).2.1.startedBulkMatch =
      some (rt, u.topTreeItemId,
            ats.map (actOf (GetLicenses srv u._id u.topTreeItemId))) := by
  have hun : GetUploadNum srv f un = u0._id := by
    simp [GetUploadNum, h3]
  have hbl := buildActionList_resolves_fresh srv fn un f u
    (GetLicenses srv u._id u.topTreeItemId) h1 h2 h5 rfl h7 ats h8
  rcases hb : buildActionList srv fn un ats none 0 with ⟨res, c, fct⟩
  rw [hb] at hbl
  simp only at hbl
  subst hbl
  simp [BulkTextMatch_run, h1, h2, hun, h4, h5, hb]

/-- A server with one folder Folder1 holding the upload pkg, whose
license list maps MIT to 7 and GPL-2.0 to 12. -/
def srv9 : ServerModel :=
  { folderNum := fun fn => if fn = "Folder1" then some 2 else none
    uploadData := fun f =>
      if f = 2 then some [{ name := "pkg", _id := 10, topTreeItemId := 100 }] else none
    licenses := fun up item =>
      if up = 10 ∧ item = 100 then
        [{ name := "MIT", _id := 7 }, { name := "GPL-2.0", _id := 12 }]
      else []
    jobs := fun _ => none
    singleJob := fun _ _ => jobCompleted
    uploadFileNum := none }

theorem C9_actions_translated_in_order_witness :
    (srv9.folderNum "Folder1" = some 2 ∧
     _getUploadData srv9 2 "pkg" true = some { name := "pkg", _id := 10, topTreeItemId := 100 } ∧
     _getUploadData srv9 2 "pkg" false = some { name := "pkg", _id := 10, topTreeItemId := 100 }) ∧
    (BulkTextMatch_run srv9 "pkg" "Folder1" "license ref text"
        [("MIT", "add"), ("GPL-2.0", "remove")] none).2.1.startedBulkMatch =
      some ("license ref text", 100,
            [{ licenseId := 7, licenseName := "MIT", action := "add" },
             { licenseId := 12, licenseName := "GPL-2.0", action := "remove" }]) :=
  ⟨⟨rfl, by decide, by decide⟩,
   ((C9_actions_translated_in_order srv9 "pkg" "Folder1" "license ref text"
       [("MIT", "add"), ("GPL-2.0", "remove")] 2
       { name := "pkg", _id := 10, topTreeItemId := 100 }
       { name := "pkg", _id := 10, topTreeItemId := 100 }
       rfl (by decide) (by decide) (by decide) (by decide) (by decide)
       (by decide)).2).trans (by decide)⟩

end Fossdriver
